import Mathlib

/-!
Verification of the `/users` endpoint of `src/app.py` (Flask + sqlite3).

The handler `list_users` reads the optional query-string parameters
`name` and `email`, builds a parameterized `SELECT` statement whose text
depends only on which filters are present and non-empty, binds the
user-supplied values as positional parameters, executes the statement
against the `users` table with `ORDER BY id ASC LIMIT 500`, maps each
result row to a record with exactly the keys `id`, `name`, `email`, and
returns the list as JSON with status 200.  The connection is acquired
per request and closed in a `finally` block.  Unhandled driver errors
propagate to Flask, whose documented default (debug disabled) is a
generic 500 response carrying no exception detail.
-/

namespace App

/-- A row of the `users` table: `id INTEGER PRIMARY KEY, name TEXT, email TEXT`. -/
structure Row where
  id : Int
  name : String
  email : String
deriving DecidableEq, Repr

/-- A JSON-like value, used for response bodies (`jsonify`). -/
inductive Json where
  | str : String → Json
  | int : Int → Json
  | arr : List Json → Json
  | obj : List (String × Json) → Json

/-- The query string of a request: an ordered list of key/value pairs. -/
def QueryString : Type := List (String × String)

/-- `request.args.get(k)`: the first value bound to key `k`, if any. -/
def argsGet (qs : QueryString) (k : String) : Option String :=
  (List.find? (fun p => p.1 == k) qs).map (fun p => p.2)

/-- The test `name is not None and name != ""` from `list_users`. -/
def filterActive (v : Option String) : Bool :=
  v.isSome && !(v == some "")

/-- The SQL text and parallel bound-value list built by `list_users`
(lines 33-48 of `src/app.py`).  `clauses` records the individual
`where_clauses` entries that were joined into `sql`; the executor model
interprets them. -/
structure BuiltQuery where
  sql : String
  clauses : List String
  params : List String
deriving DecidableEq, Repr

/-- Lines 33-48 of `src/app.py`: start from the base SELECT, append
`name = ?` / `email = ?` clauses for the filters that are present and
non-empty together with their bound values, join with ` AND ` after
` WHERE `, then append ` ORDER BY id ASC LIMIT 500`. -/
def buildUsersQuery (name email : Option String) : BuiltQuery :=
  let base_query := "SELECT id, name, email FROM users"
  let where_clauses : List String := []
  let params : List String := []
  let (where_clauses, params) :=
    if filterActive name then
      (where_clauses ++ ["name = ?"], params ++ [name.getD ""])
    else (where_clauses, params)
  let (where_clauses, params) :=
    if filterActive email then
      (where_clauses ++ ["email = ?"], params ++ [email.getD ""])
    else (where_clauses, params)
  let base_query :=
    if where_clauses.isEmpty then base_query
    else base_query ++ " WHERE " ++ String.intercalate " AND " where_clauses
  let base_query := base_query ++ " ORDER BY id ASC LIMIT 500"
  { sql := base_query, clauses := where_clauses, params := params }

/-- SQLite semantics of one `where` clause of the constructed query
applied to a row, with its bound value: `name = ?` is exact,
case-sensitive (BINARY collation) comparison on the `name` column, and
likewise for `email = ?`. -/
def clauseHolds (r : Row) : String × String → Bool
  | ("name = ?", v) => r.name == v
  | ("email = ?", v) => r.email == v
  | _ => false

/-- Comparison used by `ORDER BY id ASC`. -/
def rowIdLe (a b : Row) : Prop := a.id ≤ b.id

instance : DecidableRel rowIdLe := fun a b => Int.decLe a.id b.id

instance : IsTotal Row rowIdLe := ⟨fun a b => Int.le_total a.id b.id⟩

instance : IsTrans Row rowIdLe := ⟨fun _ _ _ => Int.le_trans⟩

/-- `ORDER BY id ASC`, modelled as insertion sort on the `id` column. -/
def sortById (l : List Row) : List Row := List.insertionSort rowIdLe l

/-- SQLite execution of the constructed query over a database state:
keep the rows satisfying every clause (combined with AND), sort by `id`
ascending, and apply `LIMIT 500`. -/
def sqliteExec (db : List Row) (q : BuiltQuery) : List Row :=
  ((db.filter (fun r => (q.clauses.zip q.params).all (clauseHolds r))).insertionSort rowIdLe).take 500

/-- Line 54 of `src/app.py`: map a result row to the record
`{"id": ..., "name": ..., "email": ...}`. -/
def rowToRecord (r : Row) : Json :=
  Json.obj [("id", Json.int r.id), ("name", Json.str r.name), ("email", Json.str r.email)]

/-- An HTTP response: status code and JSON body. -/
structure Response where
  status : Nat
  body : Json

/-- The backing store as seen by one request: the database state, plus
an optional simulated driver-level failure.  When `failMsg = some m`,
`conn.execute` raises an exception whose internal text is `m`. -/
structure Store where
  db : List Row
  failMsg : Option String

/-- Outcome of running the handler body: either a response or a
propagating exception (carrying the internal exception text), together
with counts of connections opened and closed by the handler. -/
structure HandlerResult where
  result : Except String Response
  opened : Nat
  closed : Nat

/-- The `list_users` handler (lines 20-57 of `src/app.py`): read the
`name` and `email` parameters, build the parameterized query, open a
connection, execute, map rows to records, return 200; the `finally`
block closes the connection on the normal path and on the exception
path alike. -/
def list_users (store : Store) (qs : QueryString) : HandlerResult :=
  let name := argsGet qs "name"
  let email := argsGet qs "email"
  let q := buildUsersQuery name email
  match store.failMsg with
  | some m => { result := Except.error m, opened := 1, closed := 1 }
  | none =>
    let rows := sqliteExec store.db q
    let users := rows.map rowToRecord
    { result := Except.ok { status := 200, body := Json.arr users }, opened := 1, closed := 1 }

/-- Flask's documented default for an unhandled exception with debug
disabled: a generic `500 Internal Server Error` response whose body is
a fixed document containing no exception text, stack trace, file path
or schema detail. -/
def flaskDefault500 : Response :=
  { status := 500, body := Json.str "Internal Server Error" }

/-- Reply as seen by the client, with the connection accounting. -/
structure DispatchResult where
  response : Response
  opened : Nat
  closed : Nat

/-- Full request dispatch: run `list_users`; an exception that
propagates out of the handler is turned into the generic 500 response
by the framework. -/
def dispatch (store : Store) (qs : QueryString) : DispatchResult :=
  let h := list_users store qs
  match h.result with
  | Except.ok resp => { response := resp, opened := h.opened, closed := h.closed }
  | Except.error _ => { response := flaskDefault500, opened := h.opened, closed := h.closed }

/-- The list of records in a 200 response body (empty for any other body shape). -/
def responseRecords (resp : Response) : List Json :=
  match resp.body with
  | Json.arr l => l
  | _ => []

/-- The keys of a JSON object record, in order. -/
def recordKeys : Json → List String
  | Json.obj l => l.map (fun p => p.1)
  | _ => []

/-- The `id` field of a record as produced by `rowToRecord`. -/
def recordIdVal : Json → Int
  | Json.obj (("id", Json.int i) :: _) => i
  | _ => 0

/-- Does `needle` occur at the start of `hay` (on character lists)? -/
def startsWithChars : List Char → List Char → Bool
  | [], _ => true
  | _ :: _, [] => false
  | a :: as, b :: bs => a == b && startsWithChars as bs

/-- Does `needle` occur as a contiguous run inside `hay` (character lists)? -/
def hasSubChars (needle : List Char) : List Char → Bool
  | [] => startsWithChars needle []
  | b :: bs => startsWithChars needle (b :: bs) || hasSubChars needle bs

/-- `needle` occurs as a substring of `hay`. -/
def hasSub (hay needle : String) : Bool := hasSubChars needle.toList hay.toList

/-- A database of 501 rows, all named `a`, with distinct ids `0..500`. -/
def bigDb : List Row :=
  (List.range 501).map (fun i => { id := (i : Int), name := "a", email := "e" })

/- ### Helper lemmas -/

/-- The outcome of a request depends on the query string only through
the values of the `name` and `email` parameters. -/
theorem dispatch_congr (store : Store) (qs1 qs2 : QueryString)
    (hn : argsGet qs1 "name" = argsGet qs2 "name")
    (he : argsGet qs1 "email" = argsGet qs2 "email") :
    dispatch store qs1 = dispatch store qs2 := by
  simp only [dispatch, list_users, hn, he]

theorem buildUsersQuery_name_empty (e : Option String) :
    buildUsersQuery (some "") e = buildUsersQuery none e := by
  simp [buildUsersQuery, filterActive]

theorem buildUsersQuery_email_empty (n : Option String) :
    buildUsersQuery n (some "") = buildUsersQuery n none := by
  simp [buildUsersQuery, filterActive]

/-- Dropping every pair whose key is `k` makes `k` absent. -/
theorem argsGet_filter_self (qs : QueryString) (k : String) :
    argsGet (qs.filter (fun p => !(p.1 == k))) k = none := by
  induction qs with
  | nil => rfl
  | cons x xs ih =>
    by_cases hx : (x.1 == k) = true
    · simp only [List.filter_cons, hx, Bool.not_true, if_neg]
      exact ih
    · simp only [Bool.not_eq_true] at hx
      simp [argsGet, List.filter_cons, List.find?, hx, ih]

/-- Dropping every pair whose key is `k` does not change the lookup of
a different key. -/
theorem argsGet_filter_other (qs : QueryString) (k k2 : String)
    (hkk : (k2 == k) = false) :
    argsGet (qs.filter (fun p => !(p.1 == k))) k2 = argsGet qs k2 := by
  induction qs with
  | nil => rfl
  | cons x xs ih =>
    by_cases hx : (x.1 == k) = true
    · have hx1 : x.1 = k := eq_of_beq hx
      have hx2 : (x.1 == k2) = false := by
        rw [hx1, beq_eq_false_iff_ne]
        intro hc
        rw [hc, beq_self_eq_true] at hkk
        exact Bool.noConfusion hkk
      simpa [argsGet, List.filter_cons, List.find?, hx, hx2] using ih
    · simp only [Bool.not_eq_true] at hx
      by_cases hx2 : (x.1 == k2) = true
      · simp [argsGet, List.filter_cons, List.find?, hx, hx2]
      · simp only [Bool.not_eq_true] at hx2
        simpa [argsGet, List.filter_cons, List.find?, hx, hx2] using ih

/-- A filter that keeps every pair with key `k` does not change the
lookup of `k`. -/
theorem argsGet_filter_keep (keep : String × String → Bool) (qs : QueryString)
    (k : String) (hkeep : ∀ p : String × String, p.1 = k → keep p = true) :
    argsGet (qs.filter keep) k = argsGet qs k := by
  induction qs with
  | nil => rfl
  | cons x xs ih =>
    by_cases hx : (x.1 == k) = true
    · have hx1 : x.1 = k := eq_of_beq hx
      simp [argsGet, List.filter_cons, List.find?, hkeep x hx1, hx]
    · simp only [Bool.not_eq_true] at hx
      by_cases hk : keep x = true
      · simpa [argsGet, List.filter_cons, List.find?, hk, hx] using ih
      · simp only [Bool.not_eq_true] at hk
        simpa [argsGet, List.filter_cons, List.find?, hk, hx] using ih

/- ### Claim theorems -/

/-- C1: the SQL text built by `list_users` depends only on which of the
`name`/`email` filters are present and non-empty, never on their
contents, and each supplied value appears only in the bound-values
list (in filter order), which is what is passed to the executor. -/
theorem sql_text_free_of_user_input (n1 e1 n2 e2 : Option String)
    (hn : filterActive n1 = filterActive n2)
    (he : filterActive e1 = filterActive e2) :
    (buildUsersQuery n1 e1).sql = (buildUsersQuery n2 e2).sql ∧
    (buildUsersQuery n1 e1).params =
      (if filterActive n1 then [n1.getD ""] else []) ++
      (if filterActive e1 then [e1.getD ""] else []) := by
  have hn2 : filterActive n2 = filterActive n1 := hn.symm
  have he2 : filterActive e2 = filterActive e1 := he.symm
  cases hA : filterActive n1 <;> cases hB : filterActive e1 <;>
    simp [buildUsersQuery, hA, hB, hn2, he2, String.intercalate]

theorem sql_text_free_of_user_input_witness :
    filterActive (some "x; DROP TABLE users --") = filterActive (some "y") ∧
    filterActive (some "z") = filterActive (some "w") ∧
    ((buildUsersQuery (some "x; DROP TABLE users --") (some "z")).sql =
        (buildUsersQuery (some "y") (some "w")).sql ∧
      (buildUsersQuery (some "x; DROP TABLE users --") (some "z")).params =
        (if filterActive (some "x; DROP TABLE users --")
          then [(some "x; DROP TABLE users --").getD ""] else []) ++
        (if filterActive (some "z") then [(some "z").getD ""] else [])) :=
  ⟨rfl, rfl,
    sql_text_free_of_user_input (some "x; DROP TABLE users --") (some "z")
      (some "y") (some "w") rfl rfl⟩

/-- C4: when the store raises during execution, the client receives the
generic 500 response — a constant independent of the internal exception
text — and the per-request connection is still closed. -/
theorem store_error_gives_generic_500 (db : List Row) (qs : QueryString)
    (m m2 : String) :
    (dispatch { db := db, failMsg := some m } qs).response = flaskDefault500 ∧
    dispatch { db := db, failMsg := some m } qs =
      dispatch { db := db, failMsg := some m2 } qs ∧
    (dispatch { db := db, failMsg := some m } qs).closed = 1 ∧
    (dispatch { db := db, failMsg := some m } qs).opened = 1 := by
  simp [dispatch, list_users]

/-- C5: on every exit path — success or an exception during execution —
the handler closes exactly the connection it opened before returning or
letting the exception propagate. -/
theorem connection_always_released (store : Store) (qs : QueryString) :
    (list_users store qs).closed = (list_users store qs).opened ∧
    (list_users store qs).opened = 1 ∧
    (dispatch store qs).closed = (dispatch store qs).opened := by
  cases h : store.failMsg <;> simp [list_users, dispatch, h]

/-- C2 counterexample: the handler does not read an `id` parameter at
all; `GET /users?id=abc` is answered with 200, not 400, and no
validation error is produced. -/
theorem id_param_not_validated :
    (dispatch { db := [], failMsg := none } [("id", "abc")]).response.status = 200 ∧
    ¬ (dispatch { db := [], failMsg := none } [("id", "abc")]).response.status = 400 := by
  exact ⟨rfl, by decide⟩

/-- C2 amended: `id` is not a recognized filter key; a request carrying
`id=abc` is treated exactly as the same request without it, and (when
the store does not fail) is answered with 200. -/
theorem id_param_ignored (db : List Row) (qs : QueryString) :
    dispatch { db := db, failMsg := none } (("id", "abc") :: qs) =
      dispatch { db := db, failMsg := none } qs ∧
    (dispatch { db := db, failMsg := none } (("id", "abc") :: qs)).response.status = 200 := by
  refine ⟨dispatch_congr _ _ _ rfl rfl, ?_⟩
  simp [dispatch, list_users]

/-- C3 counterexample: `search` is not a recognized filter key; with a
database whose single row is named `bob`, `GET /users?search=ali`
returns that row even though `bob` does not contain `ali`, so the
response is not the set of rows whose name contains the search string. -/
theorem search_param_not_a_filter :
    hasSub "bob" "ali" = false ∧
    ¬ (responseRecords (dispatch
          { db := [{ id := 1, name := "bob", email := "bob@x" }], failMsg := none }
          [("search", "ali")]).response =
        (List.filter (fun r => hasSub r.name "ali")
          [{ id := 1, name := "bob", email := "bob@x" }]).map rowToRecord) := by
  refine ⟨rfl, ?_⟩
  intro h
  have h1 : responseRecords (dispatch
      { db := [{ id := 1, name := "bob", email := "bob@x" }], failMsg := none }
      [("search", "ali")]).response =
      [rowToRecord { id := 1, name := "bob", email := "bob@x" }] := rfl
  have h2 : (List.filter (fun r => hasSub r.name "ali")
      [({ id := 1, name := "bob", email := "bob@x" } : Row)]).map rowToRecord = [] := rfl
  rw [h1, h2] at h
  exact List.cons_ne_nil _ _ h

/-- C3 amended: the handler recognizes only `name` and `email`; a
`search` parameter has no effect, and the response equals that of the
same request without it. -/
theorem search_param_ignored (db : List Row) (qs : QueryString) (v : String) :
    dispatch { db := db, failMsg := none } (("search", v) :: qs) =
      dispatch { db := db, failMsg := none } qs := by
  exact dispatch_congr _ _ _ rfl rfl

/-- C6: with no query parameters the handler answers 200 with every row
of the table (up to the 500-row cap, in `id` order), each mapped to a
record whose keys are exactly `id`, `name`, `email`. -/
theorem no_params_lists_all_rows (db : List Row) :
    (dispatch { db := db, failMsg := none } []).response.status = 200 ∧
    responseRecords (dispatch { db := db, failMsg := none } []).response =
      ((sortById db).take 500).map rowToRecord ∧
    List.Perm (sortById db) db ∧
    ∀ j ∈ responseRecords (dispatch { db := db, failMsg := none } []).response,
      recordKeys j = ["id", "name", "email"] := by
  have hrec : responseRecords (dispatch { db := db, failMsg := none } []).response =
      ((sortById db).take 500).map rowToRecord := by
    simp [dispatch, list_users, argsGet, sqliteExec, buildUsersQuery, filterActive,
      responseRecords, sortById]
  refine ⟨rfl, hrec, List.perm_insertionSort rowIdLe db, ?_⟩
  intro j hj
  rw [hrec] at hj
  rcases List.mem_map.1 hj with ⟨r, _, rfl⟩
  rfl

set_option maxRecDepth 8000 in
/-- C7 counterexample: with 501 rows all named `a`, the response to
`GET /users?name=a` holds only 500 records while 501 rows match, so the
response is not exactly the set of rows whose name equals the value. -/
theorem name_filter_misses_rows_beyond_cap :
    (responseRecords (dispatch { db := bigDb, failMsg := none }
        [("name", "a")]).response).length = 500 ∧
    ((bigDb.filter (fun r => r.name == "a")).map rowToRecord).length = 501 ∧
    ¬ (responseRecords (dispatch { db := bigDb, failMsg := none }
          [("name", "a")]).response =
        (bigDb.filter (fun r => r.name == "a")).map rowToRecord) := by
  have h500 : (responseRecords (dispatch { db := bigDb, failMsg := none }
      [("name", "a")]).response).length = 500 := by decide
  have h501 : ((bigDb.filter (fun r => r.name == "a")).map rowToRecord).length = 501 := by
    decide
  refine ⟨h500, h501, ?_⟩
  intro h
  have hlen := congrArg List.length h
  rw [h500, h501] at hlen
  exact absurd hlen (by decide)

/-- C7 amended: `GET /users?name=v` (v non-empty) answers 200 with the
first 500, in ascending `id` order, of the rows whose `name` equals `v`
under exact case-sensitive comparison; whenever at most 500 rows match,
these are exactly the matching rows and no others. -/
theorem name_filter_exact_match (db : List Row) (v : String) (hv : v ≠ "") :
    (dispatch { db := db, failMsg := none } [("name", v)]).response.status = 200 ∧
    responseRecords (dispatch { db := db, failMsg := none } [("name", v)]).response =
      ((sortById (db.filter (fun r => r.name == v))).take 500).map rowToRecord ∧
    ((db.filter (fun r => r.name == v)).length ≤ 500 →
      responseRecords (dispatch { db := db, failMsg := none } [("name", v)]).response =
        (sortById (db.filter (fun r => r.name == v))).map rowToRecord ∧
      List.Perm (sortById (db.filter (fun r => r.name == v)))
        (db.filter (fun r => r.name == v))) := by
  have hrec : responseRecords (dispatch { db := db, failMsg := none }
      [("name", v)]).response =
      ((sortById (db.filter (fun r => r.name == v))).take 500).map rowToRecord := by
    simp [dispatch, list_users, argsGet, List.find?, sqliteExec, buildUsersQuery,
      filterActive, hv, clauseHolds, responseRecords, sortById]
  refine ⟨rfl, hrec, ?_⟩
  intro hlen
  have hperm : List.Perm (sortById (db.filter (fun r => r.name == v)))
      (db.filter (fun r => r.name == v)) :=
    List.perm_insertionSort rowIdLe _
  have hslen : (sortById (db.filter (fun r => r.name == v))).length ≤ 500 := by
    rw [hperm.length_eq]
    exact hlen
  rw [hrec, List.take_of_length_le hslen]
  exact ⟨rfl, hperm⟩

theorem name_filter_exact_match_witness :
    ("alice" : String) ≠ "" ∧
    ((dispatch { db := [{ id := 2, name := "bob", email := "b@x" },
          { id := 1, name := "alice", email := "a@x" }], failMsg := none }
        [("name", "alice")]).response.status = 200 ∧
      responseRecords (dispatch { db := [{ id := 2, name := "bob", email := "b@x" },
            { id := 1, name := "alice", email := "a@x" }], failMsg := none }
          [("name", "alice")]).response =
        ((sortById (List.filter (fun r : Row => r.name == "alice")
            [{ id := 2, name := "bob", email := "b@x" },
              { id := 1, name := "alice", email := "a@x" }])).take 500).map rowToRecord ∧
      ((List.filter (fun r : Row => r.name == "alice")
            [{ id := 2, name := "bob", email := "b@x" },
              { id := 1, name := "alice", email := "a@x" }]).length ≤ 500 →
        responseRecords (dispatch { db := [{ id := 2, name := "bob", email := "b@x" },
              { id := 1, name := "alice", email := "a@x" }], failMsg := none }
            [("name", "alice")]).response =
          (sortById (List.filter (fun r : Row => r.name == "alice")
              [{ id := 2, name := "bob", email := "b@x" },
                { id := 1, name := "alice", email := "a@x" }])).map rowToRecord ∧
        List.Perm (sortById (List.filter (fun r : Row => r.name == "alice")
              [{ id := 2, name := "bob", email := "b@x" },
                { id := 1, name := "alice", email := "a@x" }]))
          (List.filter (fun r : Row => r.name == "alice")
            [{ id := 2, name := "bob", email := "b@x" },
              { id := 1, name := "alice", email := "a@x" }]))) :=
  ⟨by decide,
    name_filter_exact_match
      [{ id := 2, name := "bob", email := "b@x" },
        { id := 1, name := "alice", email := "a@x" }] "alice" (by decide)⟩

/-- C8: every response holds at most 500 records, and the records are
in ascending order of their `id` field. -/
theorem row_cap_and_ordering (store : Store) (qs : QueryString) :
    (responseRecords (dispatch store qs).response).length ≤ 500 ∧
    List.Sorted (· ≤ ·)
      ((responseRecords (dispatch store qs).response).map recordIdVal) := by
  rcases store with ⟨db, fm⟩
  cases fm with
  | some m =>
    simp [dispatch, list_users, responseRecords, flaskDefault500]
  | none =>
    have hrec : responseRecords (dispatch { db := db, failMsg := none } qs).response =
        (((db.filter (fun r =>
            (((buildUsersQuery (argsGet qs "name") (argsGet qs "email")).clauses.zip
              (buildUsersQuery (argsGet qs "name") (argsGet qs "email")).params).all
              (clauseHolds r)))).insertionSort rowIdLe).take 500).map rowToRecord := by
      simp [dispatch, list_users, responseRecords, sqliteExec]
    rw [hrec]
    constructor
    · rw [List.length_map, List.length_take]
      exact min_le_left _ _
    · rw [List.map_map]
      have hsorted : List.Sorted rowIdLe
          ((db.filter (fun r =>
            (((buildUsersQuery (argsGet qs "name") (argsGet qs "email")).clauses.zip
              (buildUsersQuery (argsGet qs "name") (argsGet qs "email")).params).all
              (clauseHolds r)))).insertionSort rowIdLe) :=
        List.sorted_insertionSort rowIdLe _
      have htake := List.Pairwise.sublist (List.take_sublist 500 _) hsorted
      exact (List.pairwise_map).2 htake

/-- C9: a `name` or `email` parameter supplied with the empty-string
value contributes no clause and no bound value: the response equals the
response to the same request with that parameter removed. -/
theorem empty_string_filter_like_absent (store : Store) (qs : QueryString)
    (k : String) (hk : k = "name" ∨ k = "email") (h : argsGet qs k = some "") :
    dispatch store qs = dispatch store (qs.filter (fun p => !(p.1 == k))) := by
  rcases hk with rfl | rfl
  · have h1 : argsGet (qs.filter (fun p => !(p.1 == "name"))) "name" = none :=
      argsGet_filter_self qs "name"
    have h2 : argsGet (qs.filter (fun p => !(p.1 == "name"))) "email" =
        argsGet qs "email" :=
      argsGet_filter_other qs "name" "email" rfl
    simp only [dispatch, list_users, h, h1, h2, buildUsersQuery_name_empty]
  · have h1 : argsGet (qs.filter (fun p => !(p.1 == "email"))) "email" = none :=
      argsGet_filter_self qs "email"
    have h2 : argsGet (qs.filter (fun p => !(p.1 == "email"))) "name" =
        argsGet qs "name" :=
      argsGet_filter_other qs "email" "name" rfl
    simp only [dispatch, list_users, h, h1, h2, buildUsersQuery_email_empty]

theorem empty_string_filter_like_absent_witness :
    (("name" : String) = "name" ∨ ("name" : String) = "email") ∧
    argsGet [("name", "")] "name" = some "" ∧
    dispatch { db := [], failMsg := none } [("name", "")] =
      dispatch { db := [], failMsg := none }
        (([("name", "")] : QueryString).filter (fun p => !(p.1 == "name"))) :=
  ⟨Or.inl rfl, rfl,
    empty_string_filter_like_absent { db := [], failMsg := none } [("name", "")]
      "name" (Or.inl rfl) rfl⟩

/-- C10: query-string parameters with keys other than `name` and
`email` have no effect: the full outcome equals that of the same
request with all other parameters removed. -/
theorem unrecognized_params_no_effect (store : Store) (qs : QueryString) :
    dispatch store qs =
      dispatch store (qs.filter (fun p => p.1 == "name" || p.1 == "email")) := by
  apply dispatch_congr
  · exact (argsGet_filter_keep _ qs "name" (fun p hp => by simp [hp])).symm
  · exact (argsGet_filter_keep _ qs "email" (fun p hp => by simp [hp])).symm

end App
